import Mathlib

/-!
Shallow embedding of `telegram_menu/models.py` (library version 0.3.4):
button and message data model, keyboard lookup and insertion, the
App-message expiry policy, and the HTML list formatter.

Modelling conventions:
* Timestamps (`datetime.datetime.now()`) are abstract instants in seconds,
  modelled as `Int`; `datetime.timedelta(seconds = n)` is the integer `n`.
  Every method that reads the wall clock takes the current time `now` as an
  explicit argument.
* A Python method that mutates `self` becomes a function `state → state`;
  a method with no assignment to `self` returns its result only, so freedom
  from side effects is visible in the type.
* Raised exceptions become `Except PyError` results.
* The opaque button callback (`callback (obj, optional)`) is a type
  parameter `α`; `None` is `Option.none`.
* The `_navigation` back-reference and the `_logger` handle are process
  resources, not data-model state; no embedded operation reads or writes
  them, so they are not carried in the state records.  Likewise
  `emojize` (a pure lookup into the external `emoji` package) and
  `edit_message` (pure delegation to the absent navigation module) are not
  embedded: no claim below depends on them.
-/

/-- Embeds `class ButtonType(Enum)`: NOTIFICATION, MESSAGE, PICTURE. -/
inductive ButtonType : Type
  | NOTIFICATION : ButtonType
  | MESSAGE : ButtonType
  | PICTURE : ButtonType
deriving DecidableEq, Repr

/-- Embeds `class MenuButton`: label, optional callback, button type.
Python defaults (`callback=None`, `btype=ButtonType.NOTIFICATION`) are
written out explicitly at every construction site. -/
structure MenuButton (α : Type) : Type where
  label : String
  callback : Option α
  btype : ButtonType
deriving DecidableEq, Repr

/-- Exceptions raised by the embedded code. -/
inductive PyError : Type
  | EnvironmentError : String → PyError
  | NotImplementedError : PyError
  | TypeError : String → PyError
deriving DecidableEq, Repr

/-- Embeds the state written by `BaseMessage.__init__` (the `_navigation`
back-reference is omitted, see the header note). -/
structure BaseMessage (α : Type) : Type where
  keyboard : List (MenuButton α)
  label : String
  is_inline : Bool
  keyboard_previous : List (MenuButton α)
  content_previous : Option String
deriving DecidableEq, Repr

/-- Embeds `BaseMessage.__init__(self, navigation, label)`. -/
def BaseMessage.init (α : Type) (label : String) : BaseMessage α :=
  { keyboard := []
    label := label
    is_inline := false
    keyboard_previous := []
    content_previous := none }

/-- Embeds `BaseMessage.get_button(self, label)`:
`buttons = [x for x in self.keyboard if x.label == label]`;
raise `EnvironmentError` if more than one, `None` if empty, else
`buttons[0]`. -/
def BaseMessage.get_button (m : BaseMessage α) (label : String) :
    Except PyError (Option (MenuButton α)) :=
  let buttons := m.keyboard.filter (fun x => x.label == label)
  if buttons.length > 1 then
    Except.error (PyError.EnvironmentError "More than one button with same label")
  else
    match buttons with
    | [] => Except.ok none
    | b :: _ => Except.ok (some b)

/-- Embeds `BaseMessage.add_button(self, label, callback=None)`:
`self.keyboard.append(MenuButton(label, callback))`, so the new button gets
the default `btype = ButtonType.NOTIFICATION`. -/
def BaseMessage.add_button (m : BaseMessage α) (label : String) (callback : Option α) :
    BaseMessage α :=
  { m with keyboard := m.keyboard ++ [{ label := label
                                        callback := callback
                                        btype := ButtonType.NOTIFICATION }] }

/-- Embeds `BaseMessage.content_updater(self)`: `raise NotImplementedError`. -/
def BaseMessage.content_updater (m : BaseMessage α) : Except PyError String :=
  Except.error PyError.NotImplementedError

/-- Embeds `class MenuMessage(BaseMessage)`: `__init__` only calls
`BaseMessage.__init__`, adding no fields. -/
structure MenuMessage (α : Type) extends BaseMessage α
deriving DecidableEq, Repr

/-- Embeds `MenuMessage.__init__(self, navigation, label)`. -/
def MenuMessage.init (α : Type) (label : String) : MenuMessage α :=
  { toBaseMessage := BaseMessage.init α label }

/-- Embeds `MenuMessage.content_updater(self)`: `raise NotImplementedError`. -/
def MenuMessage.content_updater (m : MenuMessage α) : Except PyError String :=
  Except.error PyError.NotImplementedError

/-- Embeds the state written by `AppMessage.__init__` on top of the base
fields (`_logger` omitted, see the header note; `_status` is the field set
to `None` there). -/
structure AppMessage (α : Type) extends BaseMessage α where
  status : Option String
  home_after : Bool
  message_id : Option Int
  time_alive : Option Int
  expiry_period : Int
deriving DecidableEq, Repr

/-- Embeds the class attribute `AppMessage.EXPIRING_DELAY = 120` (seconds). -/
def AppMessage.EXPIRING_DELAY : Int := 120

/-- Embeds `AppMessage.__init__(self, navigation, label)`: base init, then
`_status = None`, `home_after = False`, `message_id = None`,
`is_inline = True`, `time_alive = None`,
`expiry_period = timedelta(seconds=EXPIRING_DELAY)`. -/
def AppMessage.init (α : Type) (label : String) : AppMessage α :=
  { toBaseMessage := { BaseMessage.init α label with is_inline := true }
    status := none
    home_after := false
    message_id := none
    time_alive := none
    expiry_period := AppMessage.EXPIRING_DELAY }

/-- Embeds `AppMessage.is_alive(self)`:
`self.time_alive = datetime.datetime.now()`. -/
def AppMessage.is_alive (m : AppMessage α) (now : Int) : AppMessage α :=
  { m with time_alive := some now }

/-- Embeds `AppMessage.has_expired(self)`:
`return self.time_alive + self.expiry_period < datetime.datetime.now()`.
When `time_alive` is still `None` the Python addition raises `TypeError`. -/
def AppMessage.has_expired (m : AppMessage α) (now : Int) : Except PyError Bool :=
  match m.time_alive with
  | none => Except.error (PyError.TypeError "unsupported operand for None + timedelta")
  | some t => Except.ok (decide (t + m.expiry_period < now))

/-- Embeds `AppMessage.kill_message(self)`: it only emits a debug log line,
so the message state is returned unchanged. -/
def AppMessage.kill_message (m : AppMessage α) : AppMessage α :=
  m

/-- Embeds `AppMessage.content_updater(self)`: `raise NotImplementedError`. -/
def AppMessage.content_updater (m : AppMessage α) : Except PyError String :=
  Except.error PyError.NotImplementedError

/-- Modelled from the spec: the render-diffing equality on buttons used by
the Navigation Manager.  The navigation module of this repository is not
under `src/`; spec section 4.1 states that equality for diffing purposes is
by (label, type), with callback identity irrelevant. -/
def buttonDiffEq (a b : MenuButton α) : Bool :=
  a.label == b.label && a.btype == b.btype

/-- Embeds the two kinds of elements `format_list_to_html` accepts in
`args_array`: a Python `list` element `[heading, body]` is `HtmlArg.pair`,
a bare string is `HtmlArg.str`. -/
inductive HtmlArg : Type
  | pair : String → String → HtmlArg
  | str : String → HtmlArg
deriving DecidableEq, Repr

/-- One loop iteration of `format_list_to_html` before the unconditional
newline: for a list element, `if line[0] != "": content += f"<b>..."` with
the nested `if line[1] != "": content += ": "`, then
`if line[1] != "": content += line[1]`; for a bare string,
`content += f"<b>{...}</b>"` (the braces hold `line`). -/
def format_line_step (content : String) : HtmlArg → String
  | HtmlArg.pair h b =>
    let content := if h ≠ "" then
        content ++ "<b>" ++ h ++ "</b>" ++ (if b ≠ "" then ": " else "")
      else content
    let content := if b ≠ "" then content ++ b else content
    content
  | HtmlArg.str s => content ++ "<b>" ++ s ++ "</b>"

/-- Embeds `format_list_to_html(args_array)`: `content = ""`, then for each
`line` the conditional appends of `format_line_step` followed by
`content += "\n"`, returning `content`. -/
def format_list_to_html (args_array : List HtmlArg) : String :=
  args_array.foldl (fun content line => format_line_step content line ++ "\n") ""

/-- Written from the spec words of claim C8: the segment one
(heading, body) pair contributes — the heading wrapped in `<b>...</b>` when
non-empty, then `": "` exactly when both parts are non-empty, then the body
when non-empty, then a newline.  Compared with the source-derived
`format_list_to_html` in the C8 theorem. -/
def specPairSegment (h b : String) : String :=
  (if h ≠ "" then "<b>" ++ h ++ "</b>" else "")
    ++ (if h ≠ "" ∧ b ≠ "" then ": " else "")
    ++ (if b ≠ "" then b else "")
    ++ "\n"

/-- In-order concatenation of a list of strings. -/
def concatAll : List String → String
  | [] => ""
  | s :: rest => s ++ concatAll rest

/-- The operations callable on an `AppMessage` in the embedded module, used
to state trace properties over arbitrary call sequences. -/
inductive AppOp (α : Type) : Type
  | is_alive_call : AppOp α
  | has_expired_call : AppOp α
  | get_button_call : String → AppOp α
  | add_button_call : String → Option α → AppOp α
  | kill_message_call : AppOp α
  | content_updater_call : AppOp α
deriving DecidableEq, Repr

/-- State effect of one `AppMessage` operation invoked at instant `now`:
only `is_alive` writes `time_alive`, only `add_button` writes the keyboard,
and no embedded operation writes any other field. -/
def AppMessage.runOp (m : AppMessage α) : AppOp α → Int → AppMessage α
  | AppOp.is_alive_call, now => m.is_alive now
  | AppOp.add_button_call label callback, _ =>
      { m with toBaseMessage := m.toBaseMessage.add_button label callback }
  | AppOp.has_expired_call, _ => m
  | AppOp.get_button_call _, _ => m
  | AppOp.kill_message_call, _ => m
  | AppOp.content_updater_call, _ => m

/-- Runs a timed sequence of `AppMessage` operations. -/
def AppMessage.runTrace (m : AppMessage α) : List (AppOp α × Int) → AppMessage α
  | [] => m
  | (op, t) :: rest => AppMessage.runTrace (m.runOp op t) rest

/-- Order on `time_alive` values: `none` (never pulsed) precedes every
timestamp, and timestamps compare by `≤`. -/
def timeAliveLE : Option Int → Option Int → Prop
  | none, _ => True
  | some _, none => False
  | some a, some b => a ≤ b

/-- Bound of a `time_alive` value by an instant: vacuous for `none`. -/
def timeAliveAtMost : Option Int → Int → Prop
  | none, _ => True
  | some a, t => a ≤ t

/-- Concrete keyboard with two buttons labelled "X" (witness input). -/
def kbdup : BaseMessage Nat :=
  ((BaseMessage.init Nat "home").add_button "X" none).add_button "X" none

/-- Concrete keyboard with one button labelled "X" (witness input). -/
def kbone : BaseMessage Nat :=
  (BaseMessage.init Nat "home").add_button "X" (some 1)

/-- Concrete app message whose liveness was pulsed at instant 0 (witness
input). -/
def appW : AppMessage Nat :=
  { AppMessage.init Nat "alarm" with time_alive := some 0 }

/-- Helper: `get_button` with more than one matching button raises the
duplicate-label error. -/
theorem get_button_of_many (m : BaseMessage α) (lab : String)
    (h : (m.keyboard.filter (fun x => x.label == lab)).length > 1) :
    m.get_button lab
      = Except.error (PyError.EnvironmentError "More than one button with same label") := by
  simp only [BaseMessage.get_button]
  rw [if_pos h]

/-- Helper: one loop step of the formatter appends a content-independent
segment. -/
theorem format_line_step_append (content : String) (line : HtmlArg) :
    format_line_step content line = content ++ format_line_step "" line := by
  cases line with
  | pair h b =>
      simp only [format_line_step]
      by_cases hh : h = "" <;> by_cases hb : b = "" <;>
        simp [hh, hb, String.append_assoc, String.append_empty]
  | str s =>
      simp [format_line_step, String.append_assoc]

/-- Helper: the formatter loop, started from any accumulator, appends the
in-order concatenation of the per-line segments. -/
theorem format_foldl_eq (l : List HtmlArg) (content : String) :
    l.foldl (fun c line => format_line_step c line ++ "\n") content
      = content ++ concatAll (l.map (fun line => format_line_step "" line ++ "\n")) := by
  induction l generalizing content with
  | nil => simp [concatAll, String.append_empty]
  | cons x rest ih =>
      simp only [List.foldl_cons, List.map_cons, concatAll]
      rw [ih, format_line_step_append]
      simp [String.append_assoc]

/-- Helper: `format_list_to_html` is the concatenation of one segment per
entry, each segment ending in the newline the loop appends unconditionally. -/
theorem format_list_to_html_eq (l : List HtmlArg) :
    format_list_to_html l
      = concatAll (l.map (fun line => format_line_step "" line ++ "\n")) := by
  simpa using format_foldl_eq l ""

/-- Helper: on a (heading, body) pair the source loop step produces exactly
the segment described by the spec. -/
theorem format_line_step_pair_eq_spec (h b : String) :
    format_line_step "" (HtmlArg.pair h b) ++ "\n" = specPairSegment h b := by
  simp only [format_line_step, specPairSegment]
  by_cases hh : h = "" <;> by_cases hb : b = "" <;>
    simp [hh, hb, String.append_assoc, String.append_empty]

/-- Claim C1: for every message keyboard and label, `get_button(label)`
returns the unique button with that label when exactly one matches, returns
the absence signal `None` when none matches, and raises the duplicate-label
error (`EnvironmentError` in the source, the spec names it
`DuplicateLabelError`) when more than one button shares the label. -/
theorem get_button_unique_spec (α : Type) (m : BaseMessage α) (lab : String) :
    ((m.keyboard.filter (fun x => x.label == lab)).length = 1 →
        ∃ b, m.get_button lab = Except.ok (some b) ∧ b ∈ m.keyboard ∧ b.label = lab
          ∧ ∀ c ∈ m.keyboard, c.label = lab → c = b)
  ∧ ((m.keyboard.filter (fun x => x.label == lab)).length = 0 →
        m.get_button lab = Except.ok none)
  ∧ ((m.keyboard.filter (fun x => x.label == lab)).length > 1 →
        m.get_button lab
          = Except.error (PyError.EnvironmentError "More than one button with same label")) := by
  refine ⟨?_, ?_, fun h2 => get_button_of_many m lab h2⟩
  · intro h1
    obtain ⟨b, hb⟩ := List.length_eq_one.mp h1
    have hmem : b ∈ m.keyboard.filter (fun x => x.label == lab) := by
      rw [hb]; exact List.mem_singleton_self b
    have hmem2 := List.mem_filter.mp hmem
    refine ⟨b, ?_, hmem2.1, by simpa using hmem2.2, ?_⟩
    · simp [BaseMessage.get_button, hb]
    · intro c hc hcl
      have hcf : c ∈ m.keyboard.filter (fun x => x.label == lab) :=
        List.mem_filter.mpr ⟨hc, by simpa using hcl⟩
      rw [hb] at hcf
      simpa using hcf
  · intro h0
    simp [BaseMessage.get_button, List.length_eq_zero.mp h0]

/-- Witness for C1 at a concrete keyboard with two buttons labelled "X". -/
theorem get_button_unique_witness :
    (kbdup.keyboard.filter (fun x => x.label == "X")).length > 1
  ∧ kbdup.get_button "X"
      = Except.error (PyError.EnvironmentError "More than one button with same label") :=
  ⟨by decide, (get_button_unique_spec Nat kbdup "X").2.2 (by decide)⟩

/-- Claim C4: `add_button(label, callback)` appends exactly one new button
with that label and callback (and the default NOTIFICATION type) at the end
of the keyboard, leaves every other field and all previous buttons and
their order unchanged, and is total; it performs no uniqueness validation,
so after adding a second button with an already-used label the violation
only surfaces at a later `get_button` lookup. -/
theorem add_button_append_spec (α : Type) (m : BaseMessage α) (lab : String) (cb : Option α) :
    ((m.add_button lab cb).keyboard
        = m.keyboard ++ [{ label := lab, callback := cb, btype := ButtonType.NOTIFICATION }])
  ∧ (m.add_button lab cb).label = m.label
  ∧ (m.add_button lab cb).is_inline = m.is_inline
  ∧ (m.add_button lab cb).keyboard_previous = m.keyboard_previous
  ∧ (m.add_button lab cb).content_previous = m.content_previous
  ∧ ((m.keyboard.filter (fun x => x.label == lab)).length = 1 →
      (m.add_button lab cb).get_button lab
        = Except.error (PyError.EnvironmentError "More than one button with same label")) := by
  refine ⟨rfl, rfl, rfl, rfl, rfl, ?_⟩
  intro h1
  apply get_button_of_many
  simp [BaseMessage.add_button, List.filter_append, h1]

/-- Witness for C4 at a concrete keyboard already holding one button "X". -/
theorem add_button_append_witness :
    (kbone.keyboard.filter (fun x => x.label == "X")).length = 1
  ∧ (kbone.add_button "X" (some 2)).get_button "X"
      = Except.error (PyError.EnvironmentError "More than one button with same label") :=
  ⟨by decide, (add_button_append_spec Nat kbone "X" (some 2)).2.2.2.2.2 (by decide)⟩

/-- Claim C8: on a list of (heading, body) pairs `format_list_to_html`
returns the in-order concatenation of one segment per pair — the heading
wrapped in bold tags when non-empty, the separator exactly when both parts
are non-empty, the body when non-empty, then a newline; purity holds by the
embedding (the formatter is a function of its argument alone). -/
theorem format_pairs_spec (pairs : List (String × String)) :
    format_list_to_html (pairs.map (fun p => HtmlArg.pair p.1 p.2))
      = concatAll (pairs.map (fun p => specPairSegment p.1 p.2)) := by
  rw [format_list_to_html_eq, List.map_map]
  induction pairs with
  | nil => rfl
  | cons p rest ih =>
      simp only [List.map_cons, concatAll, Function.comp] at ih ⊢
      rw [ih, format_line_step_pair_eq_spec]

/-- Claim C10: `format_list_to_html` renders a bare string entry as the
whole string in bold followed by a newline, the empty input yields the
empty string, and on any mixed input every entry contributes exactly one
segment carrying its single trailing newline. -/
theorem format_bare_entries_spec (entries : List String) :
    (format_list_to_html (entries.map HtmlArg.str)
        = concatAll (entries.map (fun s => "<b>" ++ s ++ "</b>" ++ "\n")))
  ∧ format_list_to_html [] = ""
  ∧ ∀ l : List HtmlArg, format_list_to_html l
      = concatAll (l.map (fun line => format_line_step "" line ++ "\n")) := by
  refine ⟨?_, rfl, format_list_to_html_eq⟩
  rw [format_list_to_html_eq, List.map_map]
  induction entries with
  | nil => rfl
  | cons s rest ih =>
      simp only [List.map_cons, concatAll, Function.comp] at ih ⊢
      rw [ih]
      rfl

/-- Claim C2: once a liveness pulse has set `time_alive`, `has_expired`
returns true iff the current time is strictly greater than
`time_alive + expiry_period`; it is a pure function of `time_alive`,
`expiry_period` and the current time (its type carries no state output and
its value depends on nothing else); with the default 120 s period a message
pulsed at `t` reports false at `t+119`, true at `t+121`, and after a fresh
pulse at `t+100` reports false at `t+219`. -/
theorem has_expired_pure_spec (α : Type) (m : AppMessage α) (t : Int)
    (h : m.time_alive = some t) :
    (∀ now : Int, (m.has_expired now = Except.ok true ↔ t + m.expiry_period < now))
  ∧ (∀ (now : Int) (n : AppMessage α), n.time_alive = m.time_alive →
        n.expiry_period = m.expiry_period → n.has_expired now = m.has_expired now)
  ∧ (m.expiry_period = 120 →
        m.has_expired (t + 119) = Except.ok false
      ∧ m.has_expired (t + 121) = Except.ok true
      ∧ (m.is_alive (t + 100)).has_expired (t + 219) = Except.ok false) := by
  refine ⟨?_, ?_, ?_⟩
  · intro now
    simp [AppMessage.has_expired, h]
  · intro now n h1 h2
    simp [AppMessage.has_expired, h1, h2]
  · intro hp
    refine ⟨?_, ?_, ?_⟩ <;>
      simp [AppMessage.has_expired, AppMessage.is_alive, h, hp] <;> omega

/-- Witness for C2 at `appW` (pulsed at instant 0, default 120 s period). -/
theorem has_expired_pure_witness :
    appW.has_expired (0 + 119) = Except.ok false
  ∧ appW.has_expired (0 + 121) = Except.ok true
  ∧ (appW.is_alive (0 + 100)).has_expired (0 + 219) = Except.ok false :=
  (has_expired_pure_spec Nat appW 0 rfl).2.2 rfl

/-- Claim C9: a freshly constructed app message still has
`time_alive = None`, so `has_expired` called before any `is_alive` pulse
fails with the `TypeError` of `None + timedelta`; `has_expired` yields a
boolean exactly when a pulse has set `time_alive`. -/
theorem has_expired_requires_pulse_spec (α : Type) (lab : String) :
    (AppMessage.init α lab).time_alive = none
  ∧ (∀ (m : AppMessage α) (now : Int), m.time_alive = none →
        m.has_expired now
          = Except.error (PyError.TypeError "unsupported operand for None + timedelta"))
  ∧ (∀ (m : AppMessage α) (now : Int),
        (∃ t, m.time_alive = some t) ↔ ∃ r, m.has_expired now = Except.ok r) := by
  refine ⟨rfl, ?_, ?_⟩
  · intro m now h
    simp [AppMessage.has_expired, h]
  · intro m now
    constructor
    · rintro ⟨t, ht⟩
      exact ⟨decide (t + m.expiry_period < now), by simp [AppMessage.has_expired, ht]⟩
    · rintro ⟨r, hr⟩
      cases hm : m.time_alive with
      | none => simp [AppMessage.has_expired, hm] at hr
      | some t => exact ⟨t, rfl⟩

/-- Witness for C9: the expiry check of a never-pulsed message fails. -/
theorem has_expired_requires_pulse_witness :
    (AppMessage.init Nat "alarm").has_expired 0
      = Except.error (PyError.TypeError "unsupported operand for None + timedelta") :=
  (has_expired_requires_pulse_spec Nat "alarm").2.1 (AppMessage.init Nat "alarm") 0 rfl

/-- Helper: no embedded `AppMessage` operation writes `message_id`. -/
theorem runOp_message_id (m : AppMessage α) (op : AppOp α) (t : Int) :
    (m.runOp op t).message_id = m.message_id := by
  cases op <;> rfl

/-- Helper: `message_id` is invariant under any embedded operation trace. -/
theorem runTrace_message_id (m : AppMessage α) (trace : List (AppOp α × Int)) :
    (AppMessage.runTrace m trace).message_id = m.message_id := by
  induction trace generalizing m with
  | nil => rfl
  | cons p rest ih =>
      obtain ⟨op, t⟩ := p
      rw [AppMessage.runTrace, ih, runOp_message_id]

/-- Claim C5: a fresh app message has `message_id = None` (and no embedded
operation ever assigns it — only the absent transport layer does),
`expiry_period` of exactly 120 seconds, an empty keyboard and an inline
keyboard, while a fresh menu message is not inline. -/
theorem fresh_message_defaults_spec (α : Type) (lab : String)
    (trace : List (AppOp α × Int)) :
    (AppMessage.init α lab).message_id = none
  ∧ (AppMessage.init α lab).expiry_period = 120
  ∧ (AppMessage.init α lab).keyboard = []
  ∧ (AppMessage.init α lab).is_inline = true
  ∧ (MenuMessage.init α lab).is_inline = false
  ∧ (AppMessage.runTrace (AppMessage.init α lab) trace).message_id = none :=
  ⟨rfl, rfl, rfl, rfl, rfl, runTrace_message_id (AppMessage.init α lab) trace⟩

/-- Claim C6: a message variant that has not supplied its own
`content_updater` (the base class, and the `MenuMessage`/`AppMessage`
bodies in the source, which merely re-raise) fails with
`NotImplementedError` at first render and never returns content, empty or
otherwise. -/
theorem content_updater_abstract_spec (α : Type) (b : BaseMessage α)
    (mm : MenuMessage α) (am : AppMessage α) :
    (b.content_updater = Except.error PyError.NotImplementedError
      ∧ ∀ s : String, b.content_updater ≠ Except.ok s)
  ∧ (mm.content_updater = Except.error PyError.NotImplementedError
      ∧ ∀ s : String, mm.content_updater ≠ Except.ok s)
  ∧ (am.content_updater = Except.error PyError.NotImplementedError
      ∧ ∀ s : String, am.content_updater ≠ Except.ok s) :=
  ⟨⟨rfl, fun _ h => Except.noConfusion h⟩,
   ⟨rfl, fun _ h => Except.noConfusion h⟩,
   ⟨rfl, fun _ h => Except.noConfusion h⟩⟩

/-- Witness for C6 at concrete fresh messages. -/
theorem content_updater_abstract_witness :
    (BaseMessage.init Nat "home").content_updater
      = Except.error PyError.NotImplementedError :=
  ((content_updater_abstract_spec Nat (BaseMessage.init Nat "home")
      (MenuMessage.init Nat "home") (AppMessage.init Nat "alarm")).1).1

/-- Claim C7: the render-diffing equality on buttons (modelled from the
spec, the navigation module being absent from `src/`) holds exactly when
labels and types both agree, so the callback component is irrelevant in
both directions. -/
theorem button_diff_eq_spec (α : Type) (a b : MenuButton α) :
    buttonDiffEq a b = true ↔ a.label = b.label ∧ a.btype = b.btype := by
  simp [buttonDiffEq]

/-- Witness for C7 at two concrete buttons differing only in callback. -/
theorem button_diff_eq_witness :
    buttonDiffEq { label := "X", callback := some 1, btype := ButtonType.NOTIFICATION }
        { label := "X", callback := (some 2 : Option Nat), btype := ButtonType.NOTIFICATION }
        = true
      ↔ ("X" = "X" ∧ ButtonType.NOTIFICATION = ButtonType.NOTIFICATION) :=
  button_diff_eq_spec Nat
    { label := "X", callback := some 1, btype := ButtonType.NOTIFICATION }
    { label := "X", callback := some 2, btype := ButtonType.NOTIFICATION }

/-- Helper: `timeAliveLE` is reflexive. -/
theorem timeAliveLE_refl (a : Option Int) : timeAliveLE a a := by
  cases a <;> simp [timeAliveLE]

/-- Helper: `timeAliveLE` is transitive. -/
theorem timeAliveLE_trans (a b c : Option Int)
    (h1 : timeAliveLE a b) (h2 : timeAliveLE b c) : timeAliveLE a c := by
  cases a <;> cases b <;> cases c <;> simp_all [timeAliveLE] <;> omega

/-- Helper: one operation either stamps `time_alive` with its instant
(`is_alive`) or leaves it untouched (every other embedded operation). -/
theorem runOp_time_alive (m : AppMessage α) (op : AppOp α) (t : Int) :
    (m.runOp op t).time_alive = some t ∨ (m.runOp op t).time_alive = m.time_alive := by
  cases op with
  | is_alive_call => exact Or.inl rfl
  | has_expired_call => exact Or.inr rfl
  | get_button_call _ => exact Or.inr rfl
  | add_button_call _ _ => exact Or.inr rfl
  | kill_message_call => exact Or.inr rfl
  | content_updater_call => exact Or.inr rfl

/-- Helper: under a non-decreasing clock that never runs behind the stored
stamp, a trace of operations only moves `time_alive` forward. -/
theorem runTrace_time_alive_mono (m : AppMessage α) (trace : List (AppOp α × Int)) :
    List.Sorted (· ≤ ·) (trace.map Prod.snd) →
    (∀ t ∈ trace.map Prod.snd, timeAliveAtMost m.time_alive t) →
    timeAliveLE m.time_alive (AppMessage.runTrace m trace).time_alive := by
  induction trace generalizing m with
  | nil => intro _ _; exact timeAliveLE_refl m.time_alive
  | cons p rest ih =>
      intro hs hb
      obtain ⟨op, t⟩ := p
      rw [List.map_cons, List.sorted_cons] at hs
      have hstep : timeAliveLE m.time_alive (m.runOp op t).time_alive := by
        rcases runOp_time_alive m op t with h | h
        · rw [h]
          have hbt := hb t (by simp)
          cases hm : m.time_alive with
          | none => trivial
          | some a => rw [hm] at hbt; exact hbt
        · rw [h]; exact timeAliveLE_refl m.time_alive
      have hb2 : ∀ u ∈ rest.map Prod.snd, timeAliveAtMost (m.runOp op t).time_alive u := by
        intro u hu
        rcases runOp_time_alive m op t with h | h
        · rw [h]; exact hs.1 u hu
        · rw [h]; exact hb u (by simp [hu])
      exact timeAliveLE_trans _ _ _ hstep (ih (m.runOp op t) hs.2 hb2)

/-- Claim C3: `is_alive` sets `time_alive` to the current instant and
changes no other field; consequently, across any sequence of embedded
operations whose instants are non-decreasing and never behind the stored
stamp, `time_alive` is only ever refreshed forward. -/
theorem is_alive_refresh_spec (α : Type) (m : AppMessage α) (now : Int)
    (trace : List (AppOp α × Int))
    (hs : List.Sorted (· ≤ ·) (trace.map Prod.snd))
    (hb : ∀ t ∈ trace.map Prod.snd, timeAliveAtMost m.time_alive t) :
    ((m.is_alive now).time_alive = some now
      ∧ (m.is_alive now).toBaseMessage = m.toBaseMessage
      ∧ (m.is_alive now).status = m.status
      ∧ (m.is_alive now).home_after = m.home_after
      ∧ (m.is_alive now).message_id = m.message_id
      ∧ (m.is_alive now).expiry_period = m.expiry_period)
  ∧ timeAliveLE m.time_alive (AppMessage.runTrace m trace).time_alive :=
  ⟨⟨rfl, rfl, rfl, rfl, rfl, rfl⟩, runTrace_time_alive_mono m trace hs hb⟩

/-- Witness for C3: a pulse at instant 5 followed by an expiry check at
instant 6 moves `time_alive` forward from its initial `none`. -/
theorem is_alive_refresh_witness :
    timeAliveLE (AppMessage.init Nat "alarm").time_alive
      (AppMessage.runTrace (AppMessage.init Nat "alarm")
        [(AppOp.is_alive_call, 5), (AppOp.has_expired_call, 6)]).time_alive :=
  (is_alive_refresh_spec Nat (AppMessage.init Nat "alarm") 0
      [(AppOp.is_alive_call, 5), (AppOp.has_expired_call, 6)]
      (by decide) (fun t _ => trivial)).2
